import Mathlib

/-
Verification of the staff referral program backend (src/app.py) against its
natural-language specification. The Python handlers are shallowly embedded:
records are Lean structures, the BigQuery store is abstracted to the record
transformation performed by update_referral, calendar arithmetic mirrors the
Python datetime module on valid dates, and notification emails are modelled
by the data rendered into their templates.
-/

namespace StaffReferral

set_option maxRecDepth 8000

/-- A calendar date in the proleptic Gregorian calendar, as used by the
Python datetime module. -/
structure Date where
  year : Nat
  month : Nat
  day : Nat
deriving DecidableEq, Repr

/-- Gregorian leap-year rule (Python calendar semantics). -/
def isLeap (y : Nat) : Bool :=
  (y % 4 == 0 && y % 100 != 0) || y % 400 == 0

/-- Number of days in month m of year y. -/
def daysInMonth (y m : Nat) : Nat :=
  if m = 2 then (if isLeap y then 29 else 28)
  else if m = 4 || m = 6 || m = 9 || m = 11 then 30
  else 31

/-- The calendar day after a given date. -/
def nextDay (d : Date) : Date :=
  if d.day < daysInMonth d.year d.month then ⟨d.year, d.month, d.day + 1⟩
  else if d.month < 12 then ⟨d.year, d.month + 1, 1⟩
  else ⟨d.year + 1, 1, 1⟩

/-- Adding n calendar days: the semantics of date plus timedelta in Python,
restricted to valid dates. -/
def addDays (d : Date) : Nat → Date
  | 0 => d
  | n + 1 => nextDay (addDays d n)

/-- The calendar day before a given date. -/
def prevDay (d : Date) : Date :=
  if 1 < d.day then ⟨d.year, d.month, d.day - 1⟩
  else if 1 < d.month then ⟨d.year, d.month - 1, daysInMonth d.year (d.month - 1)⟩
  else ⟨d.year - 1, 12, 31⟩

/-- Subtracting n calendar days. -/
def subDays (d : Date) : Nat → Date
  | 0 => d
  | n + 1 => prevDay (subDays d n)

/-- Structural validity of a date: positive year, month and day in range. -/
def validDate (d : Date) : Prop :=
  1 ≤ d.year ∧ 1 ≤ d.month ∧ d.month ≤ 12 ∧ 1 ≤ d.day ∧ d.day ≤ daysInMonth d.year d.month

instance (d : Date) : Decidable (validDate d) := by
  unfold validDate
  infer_instance

/-- The largest year representable by Python datetime; arithmetic past it
raises OverflowError. -/
def MAXYEAR : Nat := 9999

/-- Full English month names, as produced by strftime directive B. -/
def monthName (m : Nat) : String :=
  ["January", "February", "March", "April", "May", "June", "July",
   "August", "September", "October", "November", "December"].getD (m - 1) ""

/-- Zero-padded two-digit numeral. -/
def pad2 (n : Nat) : String :=
  if n < 10 then "0" ++ toString n else toString n

/-- Zero-padded four-digit numeral. -/
def pad4 (n : Nat) : String :=
  if n < 10 then "000" ++ toString n
  else if n < 100 then "00" ++ toString n
  else if n < 1000 then "0" ++ toString n
  else toString n

/-- strftime with format Y-m-d, used to store sixty_day_date. -/
def formatYMD (d : Date) : String :=
  pad4 d.year ++ "-" ++ pad2 d.month ++ "-" ++ pad2 d.day

/-- strftime with format B Y: full month name, a space, the year. -/
def formatMonthYear (y m : Nat) : String :=
  monthName m ++ " " ++ toString y

/-- Split a character list at hyphens. -/
def splitDashAux : List Char → List Char → List (List Char)
  | [], acc => [acc.reverse]
  | c :: cs, acc =>
    if c = '-' then acc.reverse :: splitDashAux cs []
    else splitDashAux cs (c :: acc)

/-- Split a string at hyphens. -/
def splitDash (s : String) : List (List Char) :=
  splitDashAux s.data []

/-- Accumulate decimal digits into a number; none on a non-digit. -/
def digitsToNat : List Char → Nat → Option Nat
  | [], acc => some acc
  | c :: cs, acc =>
    if c.isDigit then digitsToNat cs (10 * acc + (c.toNat - 48)) else none

/-- Parse a nonempty all-digit character list as a decimal numeral. -/
def parseNatDigits (cs : List Char) : Option Nat :=
  if cs.isEmpty then none else digitsToNat cs 0

/-- Model of datetime.strptime with format Y-m-d: a four-digit year, one- or
two-digit month and day separated by hyphens, forming a valid calendar date
with a positive year. -/
def parseDate (s : String) : Option Date :=
  match splitDash s with
  | [ys, ms, ds] =>
    match parseNatDigits ys, parseNatDigits ms, parseNatDigits ds with
    | some y, some m, some d =>
      if ys.length = 4 ∧ ms.length ≤ 2 ∧ ds.length ≤ 2 ∧ validDate ⟨y, m, d⟩
      then some ⟨y, m, d⟩ else none
    | _, _, _ => none
  | _ => none

/-- ASCII lowercase of one character (Python str.lower on the ASCII range
relevant to the stored email addresses). -/
def lowerChar (c : Char) : Char :=
  if 65 ≤ c.toNat ∧ c.toNat ≤ 90 then Char.ofNat (c.toNat + 32) else c

/-- ASCII lowercase of a string. -/
def lowerStr (s : String) : String :=
  String.mk (s.data.map lowerChar)

/-- Whitespace test used by the strip model. -/
def isSpaceChar (c : Char) : Bool :=
  c = ' ' || c = '\t' || c = '\n' || c = '\r'

/-- Python str.strip: remove leading and trailing whitespace. -/
def stripStr (s : String) : String :=
  String.mk (((s.data.dropWhile isSpaceChar).reverse.dropWhile isSpaceChar).reverse)

/-- The first n characters of a string. -/
def takeChars (n : Nat) (s : String) : String :=
  String.mk (s.data.take n)

/-- The 11 canonical status values in display order (app.py lines 60-72). -/
def STATUS_VALUES : List String :=
  ["Submitted", "Under Review", "Candidate Applied", "Interviewing", "Hired",
   "Eligible", "Paid", "Not Hired", "Withdrawn/Non-responsive",
   "Candidate Left before 60 Days", "Ineligible"]

/-- A stored referral record, the columns of row_to_dict (app.py lines
342-369). NULL date columns read back as the empty string. -/
structure Referral where
  referral_id : String
  submitted_at : String
  referrer_name : String
  referrer_email : String
  referrer_school : String
  candidate_name : String
  candidate_email : String
  candidate_phone : String
  position : String
  position_type : String
  role_fit : String
  bonus_amount : Int
  relationship : String
  already_applied : String
  notes : String
  status : String
  status_updated_at : String
  status_updated_by : String
  hire_date : String
  sixty_day_date : String
  payout_month : String
  paid_date : String
  admin_notes : String
  is_archived : Bool
deriving DecidableEq, Repr

/-- Bonus determined at submission by position type (app.py line 557). -/
def computeBonus (position_type : String) : Int :=
  if position_type = "Lead Teacher" then 500 else 300

/-- The submission form payload; a missing field is the empty string, except
already_applied whose dict-get default is the string Not yet. -/
structure SubmitData where
  referrer_name : String := ""
  referrer_email : String := ""
  referrer_school : String := ""
  candidate_name : String := ""
  candidate_email : String := ""
  candidate_phone : String := ""
  position : String := ""
  position_type : String := ""
  role_fit : String := ""
  relationship : String := ""
  already_applied : String := "Not yet"
  notes : String := ""
deriving Repr

/-- The eight required submission fields (app.py lines 544-550). -/
def requiredFieldsPresent (d : SubmitData) : Bool :=
  d.referrer_name != "" && d.referrer_email != "" && d.referrer_school != ""
    && d.candidate_name != "" && d.candidate_email != "" && d.position != ""
    && d.position_type != "" && d.relationship != ""

/-- Model of the submission handler (app.py lines 537-601): none is the
missing-field 400 response, otherwise the record inserted into the store. -/
def submit_referral (data : SubmitData) (referral_id submitted_at : String) :
    Option Referral :=
  if requiredFieldsPresent data then
    some
      { referral_id := referral_id
        submitted_at := submitted_at
        referrer_name := data.referrer_name
        referrer_email := lowerStr data.referrer_email
        referrer_school := data.referrer_school
        candidate_name := data.candidate_name
        candidate_email := lowerStr data.candidate_email
        candidate_phone := data.candidate_phone
        position := data.position
        position_type := data.position_type
        role_fit := data.role_fit
        bonus_amount := computeBonus data.position_type
        relationship := data.relationship
        already_applied := data.already_applied
        notes := data.notes
        status := "Submitted"
        status_updated_at := submitted_at
        status_updated_by := "System"
        hire_date := ""
        sixty_day_date := ""
        payout_month := ""
        paid_date := ""
        admin_notes := ""
        is_archived := false }
  else none

/-- The JSON payload of the admin PATCH endpoint: a field is some when the
key is present in the request body. -/
structure Payload where
  status : Option String := none
  hire_date : Option String := none
  position : Option String := none
  position_type : Option String := none
  bonus_amount : Option Int := none
  paid_date : Option String := none
  admin_notes : Option String := none
deriving DecidableEq, Repr

/-- The pending update set built by the PATCH handler (the updates dict). -/
structure Updates where
  status : Option String := none
  status_updated_at : Option String := none
  status_updated_by : Option String := none
  hire_date : Option String := none
  sixty_day_date : Option String := none
  payout_month : Option String := none
  position : Option String := none
  position_type : Option String := none
  bonus_amount : Option Int := none
  paid_date : Option String := none
  admin_notes : Option String := none
deriving DecidableEq, Repr

/-- One pending date-column update (app.py lines 479-484): a truthy value is
stored, a falsy value stores NULL, which reads back as the empty string. -/
def applyDateField (cur : String) : Option String → String
  | none => cur
  | some v => if v ≠ "" then v else ""

/-- One pending string-column update. -/
def applyStrField (cur : String) : Option String → String
  | none => cur
  | some v => v

/-- Model of update_referral (app.py lines 469-510): apply the pending
update set to the stored record. -/
def update_referral (r : Referral) (u : Updates) : Referral :=
  { r with
    status := applyStrField r.status u.status
    status_updated_at := applyStrField r.status_updated_at u.status_updated_at
    status_updated_by := applyStrField r.status_updated_by u.status_updated_by
    hire_date := applyDateField r.hire_date u.hire_date
    sixty_day_date := applyDateField r.sixty_day_date u.sixty_day_date
    payout_month := applyStrField r.payout_month u.payout_month
    position := applyStrField r.position u.position
    position_type := applyStrField r.position_type u.position_type
    bonus_amount := (match u.bonus_amount with | none => r.bonus_amount | some b => b)
    paid_date := applyDateField r.paid_date u.paid_date
    admin_notes := applyStrField r.admin_notes u.admin_notes }

/-- The hire-date block of the PATCH handler (app.py lines 758-773). An ok
none result means no derived field was staged (empty input, or a parse
failure whose ValueError is swallowed); ok some carries the staged
sixty_day_date and payout_month strings; an error is the OverflowError that
Python date arithmetic raises past year 9999, which the except-ValueError
clause does not catch, so it aborts the whole request. -/
def derivedDateUpdates (hire_date : String) : Except Unit (Option (String × String)) :=
  if hire_date = "" then .ok none
  else
    match parseDate hire_date with
    | none => .ok none
    | some hire_dt =>
      let sixty_day_dt := addDays hire_dt 60
      if MAXYEAR < sixty_day_dt.year then .error ()
      else
        let payout_dt := addDays ⟨sixty_day_dt.year, sixty_day_dt.month, 1⟩ 32
        if MAXYEAR < payout_dt.year then .error ()
        else .ok (some (formatYMD sixty_day_dt, formatMonthYear payout_dt.year payout_dt.month))

/-- Data rendered into the referrer status-update email (app.py lines
223-277), taken from the referral record passed to send_status_update. -/
structure StatusEmail where
  to_email : String
  referrer_name : String
  candidate_name : String
  new_status : String
  display_status : String
  referral_id : String
  position : String
  bonus_amount : Int
deriving DecidableEq, Repr

/-- Render the referrer status-update email from a referral record. -/
def mkStatusEmail (referral : Referral) (new_status : String) : StatusEmail :=
  { to_email := referral.referrer_email
    referrer_name := referral.referrer_name
    candidate_name := referral.candidate_name
    new_status := new_status
    display_status := if new_status = "Paid" then "Processing" else new_status
    referral_id := referral.referral_id
    position := referral.position
    bonus_amount := referral.bonus_amount }

/-- Data rendered into the payout-ready alert to the payroll manager with HR
and Talent in copy (app.py lines 280-332). -/
structure PayoutEmail where
  amount : Int
  pay_to : String
  referrer_email : String
  referrer_school : String
  candidate_name : String
  position : String
  hire_date : String
  sixty_day_date : String
  payout_month : String
  referral_id : String
deriving DecidableEq, Repr

/-- Render the payout-ready alert from a referral record. -/
def mkPayoutEmail (referral : Referral) : PayoutEmail :=
  { amount := referral.bonus_amount
    pay_to := referral.referrer_name
    referrer_email := referral.referrer_email
    referrer_school := referral.referrer_school
    candidate_name := referral.candidate_name
    position := referral.position
    hire_date := referral.hire_date
    sixty_day_date := referral.sixty_day_date
    payout_month := referral.payout_month
    referral_id := referral.referral_id }

/-- A notification emitted by the PATCH handler. -/
inductive Email where
  | statusChanged (e : StatusEmail)
  | payoutReady (e : PayoutEmail)
deriving DecidableEq, Repr

/-- HTTP outcome of the PATCH handler: ok is the success JSON, invalidStatus
the 400 validation error, serverError the 500 produced by the outer
exception handler. -/
inductive Response where
  | ok
  | invalidStatus
  | serverError
deriving DecidableEq, Repr

/-- Result of one PATCH request: the stored record afterwards, the HTTP
outcome, and the notifications sent. -/
structure StepResult where
  record : Option Referral
  response : Response
  emails : List Email
deriving DecidableEq, Repr

/-- The non-status, non-hire-date payload fields staged into the update set
(app.py lines 775-786). -/
def applyNonStatusFields (u : Updates) (data : Payload) : Updates :=
  { u with
    position := data.position
    position_type := data.position_type
    bonus_amount := data.bonus_amount
    paid_date := data.paid_date
    admin_notes := data.admin_notes }

/-- The notification block of the PATCH handler (app.py lines 788-795): the
emails are rendered from the record fetched before the update was applied. -/
def emailsFor (current : Option Referral) (old_status new_status : Option String) :
    List Email :=
  match new_status, old_status, current with
  | some ns, some os, some pre =>
    if ns ≠ "" ∧ os ≠ "" ∧ ns ≠ os then
      Email.statusChanged (mkStatusEmail pre ns)
        :: (if ns = "Eligible" then [Email.payoutReady (mkPayoutEmail pre)] else [])
    else []
  | _, _, _ => []

/-- The PATCH handler after status validation: stage the hire-date and other
fields, apply the update set to the store, emit notifications. -/
def finishUpdate (current : Option Referral) (data : Payload) (u1 : Updates)
    (old_status : Option String) : StepResult :=
  match data.hire_date with
  | none =>
    ⟨current.map (fun r => update_referral r (applyNonStatusFields u1 data)), .ok,
      emailsFor current old_status data.status⟩
  | some hd =>
    match derivedDateUpdates hd with
    | .error _ => ⟨current, .serverError, []⟩
    | .ok none =>
      ⟨current.map (fun r => update_referral r
          (applyNonStatusFields { u1 with hire_date := some hd } data)), .ok,
        emailsFor current old_status data.status⟩
    | .ok (some (sx, pm)) =>
      ⟨current.map (fun r => update_referral r
          (applyNonStatusFields
            { u1 with
              hire_date := some hd
              sixty_day_date := some sx
              payout_month := some pm } data)), .ok,
        emailsFor current old_status data.status⟩

/-- Model of the admin PATCH handler update_referral_status (app.py lines
732-803). current is the record fetched up front; the store write itself is
abstracted to the update_referral record transformation. -/
def update_referral_status (current : Option Referral) (data : Payload)
    (user_email now : String) : StepResult :=
  match data.status with
  | some new_status =>
    if new_status ∈ STATUS_VALUES then
      finishUpdate current data
        { status := some new_status
          status_updated_at := some now
          status_updated_by := some user_email } (current.map (fun r => r.status))
    else ⟨current, .invalidStatus, []⟩
  | none => finishUpdate current data {} (current.map (fun r => r.status))

/-- The update entries staged by the status block of the PATCH handler
(app.py lines 748-755). -/
def statusUpdatesOf (data : Payload) (user_email now : String) : Updates :=
  match data.status with
  | some new_status =>
    { status := some new_status
      status_updated_at := some now
      status_updated_by := some user_email }
  | none => {}

/-- The payload status field, when present, is canonical (so the 400 branch
is not taken). -/
def statusOKb (data : Payload) : Bool :=
  match data.status with
  | none => true
  | some s => STATUS_VALUES.contains s

/-- Result of the public lookup endpoint. -/
structure LookupResult where
  referrals : List Referral
  total_pending : Int
  total_paid : Int
deriving DecidableEq, Repr

/-- The statuses counted as pending in the lookup totals (app.py line 624). -/
def PENDING_STATUSES : List String :=
  ["Submitted", "Under Review", "Candidate Applied", "Interviewing", "Hired", "Eligible"]

/-- Sum of bonus amounts over a list of referrals. -/
def sumBonus (rs : List Referral) : Int :=
  rs.foldl (fun acc r => acc + r.bonus_amount) 0

/-- Model of the lookup endpoint (app.py lines 604-641): none is the
missing-email 400 response; admin_notes is stripped from the returned rows. -/
def lookup_referrals (all_referrals : List Referral) (email_arg : String) :
    Option LookupResult :=
  if lowerStr (stripStr email_arg) = "" then none
  else
    some
      { referrals :=
          (all_referrals.filter
            (fun r => lowerStr r.referrer_email == lowerStr (stripStr email_arg))).map
            (fun r => { r with admin_notes := "" })
        total_pending :=
          sumBonus ((all_referrals.filter
            (fun r => lowerStr r.referrer_email == lowerStr (stripStr email_arg))).filter
            (fun r => PENDING_STATUSES.contains r.status))
        total_paid :=
          sumBonus ((all_referrals.filter
            (fun r => lowerStr r.referrer_email == lowerStr (stripStr email_arg))).filter
            (fun r => r.status == "Paid")) }

/-- The aggregates of the admin stats endpoint. -/
structure Stats where
  total : Nat
  pending_review : Nat
  in_progress : Nat
  hired_pending : Nat
  paid_count : Nat
  bonuses_paid : Int
  bonuses_pending : Int
  not_hired : Nat
deriving DecidableEq, Repr

/-- The aggregates of the stats endpoint over an already-filtered list. -/
def statsOf (referrals : List Referral) : Stats :=
  { total := referrals.length
    pending_review :=
      (referrals.filter (fun r => ["Submitted", "Under Review"].contains r.status)).length
    in_progress :=
      (referrals.filter (fun r => ["Candidate Applied", "Interviewing"].contains r.status)).length
    hired_pending :=
      (referrals.filter (fun r => ["Hired", "Eligible"].contains r.status)).length
    paid_count := (referrals.filter (fun r => r.status == "Paid")).length
    bonuses_paid := sumBonus (referrals.filter (fun r => r.status == "Paid"))
    bonuses_pending :=
      sumBonus (referrals.filter (fun r => ["Hired", "Eligible"].contains r.status))
    not_hired :=
      (referrals.filter
        (fun r => ["Not Hired", "Candidate Left before 60 Days", "Ineligible"].contains r.status)).length }

/-- Model of the admin stats endpoint (app.py lines 874-915): archived rows
are filtered out before any aggregate. -/
def get_stats (all_referrals : List Referral) : Stats :=
  statsOf (all_referrals.filter (fun r => !r.is_archived))

/-- Model of the admin dump endpoint (app.py lines 724-729): every stored
row, archived or not. -/
def get_all_referrals (referrals : List Referral) : List Referral :=
  referrals

/-- One entry of the action-item list of the weekly digest (app.py lines
1053-1060). -/
inductive ActionItem where
  | reviewPending (count : Nat)
  | processPayouts (count : Nat) (total : Int)
  | upcomingSixtyDay (count : Nat)
  | allCaughtUp
deriving DecidableEq, Repr

/-- The content of the weekly rollup digest: each section table and the
action-item list. -/
structure Rollup where
  new_referrals : List Referral
  needs_review : List Referral
  interviewing : List Referral
  hired_waiting : List Referral
  upcoming_eligible : List Referral
  ready_for_payout : List Referral
  total_pending_bonus : Int
  total_paid_bonus : Int
  action_items : List ActionItem
deriving DecidableEq, Repr

/-- Lexicographic order on dates, at most. -/
def dateLEb (a b : Date) : Bool :=
  decide (a.year < b.year
    ∨ (a.year = b.year
        ∧ (a.month < b.month ∨ (a.month = b.month ∧ a.day ≤ b.day))))

/-- Lexicographic order on dates, strictly less. -/
def dateLTb (a b : Date) : Bool :=
  decide (a.year < b.year
    ∨ (a.year = b.year
        ∧ (a.month < b.month ∨ (a.month = b.month ∧ a.day < b.day))))

/-- The helper is_after of the rollup (app.py lines 934-942), modelled at
day granularity: parse the date part of the ISO timestamp, false on any
parse failure. -/
def tsAfter (ts : String) (cutoff : Date) : Bool :=
  match parseDate (takeChars 10 ts) with
  | none => false
  | some d => dateLTb cutoff d

/-- Model of send_weekly_rollup (app.py lines 926-1078): the section lists,
summary totals and action items that populate the digest, computed from the
stored referrals and the current date. -/
def send_weekly_rollup (referrals : List Referral) (now : Date) : Rollup :=
  let one_week_ago := subDays now 7
  let two_weeks_ahead := addDays now 14
  let new_referrals := referrals.filter (fun r => tsAfter r.submitted_at one_week_ago)
  let needs_review :=
    referrals.filter (fun r => ["Submitted", "Under Review"].contains r.status)
  let interviewing := referrals.filter (fun r => r.status == "Interviewing")
  let hired_waiting := referrals.filter (fun r => r.status == "Hired")
  let upcoming_eligible := referrals.filter (fun r =>
    r.status == "Hired" &&
      (match parseDate r.sixty_day_date with
       | none => false
       | some d => dateLEb now d && dateLEb d two_weeks_ahead))
  let ready_for_payout := referrals.filter (fun r => r.status == "Eligible")
  let action_items :=
    (if needs_review.isEmpty then [] else [ActionItem.reviewPending needs_review.length])
    ++ (if ready_for_payout.isEmpty then []
        else [ActionItem.processPayouts ready_for_payout.length (sumBonus ready_for_payout)])
    ++ (if upcoming_eligible.isEmpty then []
        else [ActionItem.upcomingSixtyDay upcoming_eligible.length])
    ++ (if needs_review.isEmpty && ready_for_payout.isEmpty && upcoming_eligible.isEmpty
        then [ActionItem.allCaughtUp] else [])
  { new_referrals := new_referrals
    needs_review := needs_review
    interviewing := interviewing
    hired_waiting := hired_waiting
    upcoming_eligible := upcoming_eligible
    ready_for_payout := ready_for_payout
    total_pending_bonus :=
      sumBonus (referrals.filter (fun r => ["Hired", "Eligible"].contains r.status))
    total_paid_bonus := sumBonus (referrals.filter (fun r => r.status == "Paid"))
    action_items := action_items }

/-- Written from the words of the spec, for comparison with the code: the
first day of the calendar month following the month containing the given
date, formatted as full month name plus year. -/
def payoutMonthSpec (d : Date) : String :=
  if d.month = 12 then formatMonthYear (d.year + 1) 1
  else formatMonthYear d.year (d.month + 1)

/-- A concrete stored referral used by the closed witnesses and
counterexamples: a hired Lead Teacher referral with derived dates set. -/
def testReferral : Referral :=
  { referral_id := "AB12CD34"
    submitted_at := "2024-12-20T09:00:00"
    referrer_name := "Rae Smith"
    referrer_email := "rae@example.org"
    referrer_school := "Main Campus"
    candidate_name := "Cam Jones"
    candidate_email := "cam@example.org"
    candidate_phone := "555-0100"
    position := "Teacher"
    position_type := "Lead Teacher"
    role_fit := ""
    bonus_amount := 500
    relationship := "Friend"
    already_applied := "Not yet"
    notes := ""
    status := "Hired"
    status_updated_at := "2025-01-02T09:00:00"
    status_updated_by := "admin@example.org"
    hire_date := "2025-01-01"
    sixty_day_date := "2025-03-02"
    payout_month := "April 2025"
    paid_date := ""
    admin_notes := ""
    is_archived := false }

/-- A second concrete referral by the same referrer, already paid out. -/
def testReferralPaid : Referral :=
  { testReferral with
    referral_id := "EF56GH78"
    candidate_name := "Dee Park"
    position_type := "Teacher Assistant"
    bonus_amount := 300
    status := "Paid" }

/-- A concrete referral by a different referrer. -/
def testReferralOther : Referral :=
  { testReferral with
    referral_id := "IJ90KL12"
    referrer_email := "other@example.org"
    bonus_amount := 300 }

/-- A concrete archived referral. -/
def testReferralArchived : Referral :=
  { testReferral with
    referral_id := "MN34OP56"
    status := "Eligible"
    is_archived := true }

theorem daysInMonth_ge (y m : Nat) : 28 ≤ daysInMonth y m := by
  unfold daysInMonth
  split_ifs <;> omega

theorem daysInMonth_le (y m : Nat) : daysInMonth y m ≤ 31 := by
  unfold daysInMonth
  split_ifs <;> omega

theorem addDays_add (d : Date) (a b : Nat) :
    addDays d (a + b) = addDays (addDays d a) b := by
  induction b with
  | zero => rfl
  | succ b ih => rw [Nat.add_succ]; simp [addDays, ih]

theorem addDays_within (y m day : Nat) :
    ∀ n, day + n ≤ daysInMonth y m → addDays ⟨y, m, day⟩ n = ⟨y, m, day + n⟩ := by
  intro n
  induction n with
  | zero => intro _; rfl
  | succ n ih =>
    intro h
    show nextDay (addDays ⟨y, m, day⟩ n) = ⟨y, m, day + (n + 1)⟩
    rw [ih (by omega)]
    have hlt : day + n < daysInMonth y m := by omega
    unfold nextDay
    dsimp only
    rw [if_pos hlt]
    rfl

theorem addDays_roll (y m : Nat) :
    addDays ⟨y, m, 1⟩ (daysInMonth y m) =
      if m < 12 then ⟨y, m + 1, 1⟩ else ⟨y + 1, 1, 1⟩ := by
  have h28 := daysInMonth_ge y m
  have hsplit : daysInMonth y m = (daysInMonth y m - 1) + 1 := by omega
  rw [hsplit]
  show nextDay (addDays ⟨y, m, 1⟩ (daysInMonth y m - 1)) = _
  rw [addDays_within y m 1 (daysInMonth y m - 1) (by omega)]
  have h1 : 1 + (daysInMonth y m - 1) = daysInMonth y m := by omega
  rw [h1]
  simp only [nextDay]
  rw [if_neg (lt_irrefl (daysInMonth y m))]

theorem addDays_first_32 (y m : Nat) (h1 : 1 ≤ m) (h2 : m ≤ 12) :
    (addDays ⟨y, m, 1⟩ 32).year = (if m = 12 then y + 1 else y)
    ∧ (addDays ⟨y, m, 1⟩ 32).month = (if m = 12 then 1 else m + 1) := by
  have h28 := daysInMonth_ge y m
  have h31 := daysInMonth_le y m
  have hsplit : (32 : Nat) = daysInMonth y m + (32 - daysInMonth y m) := by omega
  rw [hsplit, addDays_add, addDays_roll]
  by_cases hm : m < 12
  · rw [if_pos hm]
    have h28b := daysInMonth_ge y (m + 1)
    rw [addDays_within y (m + 1) 1 (32 - daysInMonth y m) (by omega)]
    have hne : ¬ m = 12 := by omega
    simp [hne]
  · have hm12 : m = 12 := by omega
    subst hm12
    rw [if_neg hm]
    have hL : daysInMonth y 12 = 31 := by simp [daysInMonth]
    have h28c := daysInMonth_ge (y + 1) 1
    rw [addDays_within (y + 1) 1 1 (32 - daysInMonth y 12) (by omega)]
    simp

theorem validDate_nextDay (d : Date) (h : validDate d) : validDate (nextDay d) := by
  obtain ⟨hy, hm1, hm2, hd1, hd2⟩ := h
  have h28a := daysInMonth_ge d.year (d.month + 1)
  have h28b := daysInMonth_ge (d.year + 1) 1
  unfold nextDay validDate
  split_ifs with hlt hm <;> dsimp only <;> omega

theorem validDate_addDays (d : Date) (h : validDate d) :
    ∀ n, validDate (addDays d n) := by
  intro n
  induction n with
  | zero => exact h
  | succ n ih => exact validDate_nextDay _ ih

theorem parseDate_valid {s : String} {d : Date} (h : parseDate s = some d) :
    validDate d := by
  unfold parseDate at h
  split at h
  · split at h
    · split at h
      · rename_i hc
        injection h with h2
        subst h2
        exact hc.2.2.2
      · exact absurd h (by simp)
    all_goals exact absurd h (by simp)
  · exact absurd h (by simp)

theorem payout_code_eq_spec (d : Date) (h : validDate d) :
    formatMonthYear (addDays ⟨d.year, d.month, 1⟩ 32).year
        (addDays ⟨d.year, d.month, 1⟩ 32).month
      = payoutMonthSpec d := by
  obtain ⟨hy, hm1, hm2, _, _⟩ := h
  obtain ⟨hyr, hmo⟩ := addDays_first_32 d.year d.month hm1 hm2
  rw [hyr, hmo]
  unfold payoutMonthSpec
  by_cases h12 : d.month = 12
  · simp [h12]
  · simp [h12]

theorem derivedDateUpdates_parseable {hd : String} {d : Date}
    (hp : parseDate hd = some d)
    (h60 : (addDays d 60).year ≤ 9999)
    (h32 : (addDays ⟨(addDays d 60).year, (addDays d 60).month, 1⟩ 32).year ≤ 9999) :
    derivedDateUpdates hd =
      .ok (some (formatYMD (addDays d 60), payoutMonthSpec (addDays d 60))) := by
  have hne : hd ≠ "" := by
    intro he
    have h0 : parseDate "" = none := by decide
    rw [he, h0] at hp
    exact absurd hp (by simp)
  have hv : validDate (addDays d 60) := validDate_addDays d (parseDate_valid hp) 60
  unfold derivedDateUpdates
  rw [if_neg hne, hp]
  simp only [MAXYEAR]
  rw [if_neg (by omega), if_neg (by omega)]
  rw [payout_code_eq_spec (addDays d 60) hv]

theorem derivedDateUpdates_unparseable {hd : String}
    (hne : hd ≠ "") (hp : parseDate hd = none) :
    derivedDateUpdates hd = .ok none := by
  unfold derivedDateUpdates
  rw [if_neg hne, hp]

theorem applyDateField_some (cur v : String) :
    applyDateField cur (some v) = v := by
  show (if v ≠ "" then v else "") = v
  split_ifs with h
  · rfl
  · simp only [ne_eq, not_not] at h
    exact h.symm

theorem applyDateField_none (cur : String) :
    applyDateField cur none = cur := rfl

theorem applyStrField_none (cur : String) :
    applyStrField cur none = cur := rfl

theorem applyStrField_some (cur v : String) :
    applyStrField cur (some v) = v := rfl

theorem update_referral_bonus_none (r : Referral) (u : Updates)
    (h : u.bonus_amount = none) :
    (update_referral r u).bonus_amount = r.bonus_amount := by
  unfold update_referral
  dsimp only
  rw [h]

theorem applyNonStatusFields_bonus (u : Updates) (data : Payload) :
    (applyNonStatusFields u data).bonus_amount = data.bonus_amount := rfl

theorem map_update_bonus (current : Option Referral) (u : Updates)
    (h : u.bonus_amount = none) :
    (current.map (fun r => update_referral r u)).map (fun r => r.bonus_amount)
      = current.map (fun r => r.bonus_amount) := by
  cases current with
  | none => rfl
  | some pre =>
    dsimp only [Option.map]
    rw [update_referral_bonus_none _ _ h]

theorem mem_STATUS_VALUES_ne_empty {s : String} (h : s ∈ STATUS_VALUES) :
    s ≠ "" := by
  intro he
  subst he
  exact absurd h (by decide)

theorem statusOKb_mem {data : Payload} {ns : String}
    (hok : statusOKb data = true) (hns : data.status = some ns) :
    ns ∈ STATUS_VALUES := by
  unfold statusOKb at hok
  rw [hns] at hok
  exact List.mem_of_elem_eq_true hok

theorem statusUpdatesOf_hire (data : Payload) (user now : String) :
    (statusUpdatesOf data user now).hire_date = none := by
  unfold statusUpdatesOf
  cases data.status <;> rfl

theorem statusUpdatesOf_sixty (data : Payload) (user now : String) :
    (statusUpdatesOf data user now).sixty_day_date = none := by
  unfold statusUpdatesOf
  cases data.status <;> rfl

theorem statusUpdatesOf_payout (data : Payload) (user now : String) :
    (statusUpdatesOf data user now).payout_month = none := by
  unfold statusUpdatesOf
  cases data.status <;> rfl

theorem statusUpdatesOf_status (data : Payload) (user now : String) :
    (statusUpdatesOf data user now).status = data.status := by
  unfold statusUpdatesOf
  cases data.status <;> rfl

theorem handler_invalid_status (current : Option Referral) (data : Payload)
    (user now : String) (ns : String)
    (hns : data.status = some ns) (hmem : ns ∉ STATUS_VALUES) :
    update_referral_status current data user now = ⟨current, .invalidStatus, []⟩ := by
  unfold update_referral_status
  rw [hns]
  dsimp only
  rw [if_neg hmem]

theorem update_status_eq_finish (current : Option Referral) (data : Payload)
    (user now : String) (hok : statusOKb data = true) :
    update_referral_status current data user now =
      finishUpdate current data (statusUpdatesOf data user now)
        (current.map (fun r => r.status)) := by
  unfold update_referral_status statusUpdatesOf
  cases hst : data.status with
  | none => rfl
  | some ns =>
    dsimp only
    rw [if_pos (statusOKb_mem hok hst)]

theorem finishUpdate_no_derived (current : Option Referral) (data : Payload)
    (u1 : Updates) (os : Option String) (hd : String)
    (hhd : data.hire_date = some hd) (hder : derivedDateUpdates hd = .ok none) :
    finishUpdate current data u1 os =
      ⟨current.map (fun r => update_referral r
          (applyNonStatusFields { u1 with hire_date := some hd } data)), .ok,
        emailsFor current os data.status⟩ := by
  unfold finishUpdate
  rw [hhd]
  dsimp only
  rw [hder]

theorem finishUpdate_parseable (current : Option Referral) (data : Payload)
    (u1 : Updates) (os : Option String) (hd sx pm : String)
    (hhd : data.hire_date = some hd)
    (hder : derivedDateUpdates hd = .ok (some (sx, pm))) :
    finishUpdate current data u1 os =
      ⟨current.map (fun r => update_referral r
          (applyNonStatusFields
            { u1 with
              hire_date := some hd
              sixty_day_date := some sx
              payout_month := some pm } data)), .ok,
        emailsFor current os data.status⟩ := by
  unfold finishUpdate
  rw [hhd]
  dsimp only
  rw [hder]

theorem finishUpdate_overflow (current : Option Referral) (data : Payload)
    (u1 : Updates) (os : Option String) (hd : String)
    (hhd : data.hire_date = some hd) (hder : derivedDateUpdates hd = .error ()) :
    finishUpdate current data u1 os = ⟨current, .serverError, []⟩ := by
  unfold finishUpdate
  rw [hhd]
  dsimp only
  rw [hder]

theorem finishUpdate_emails (current : Option Referral) (data : Payload)
    (u1 : Updates) (os : Option String)
    (hok2 : (finishUpdate current data u1 os).response = .ok) :
    (finishUpdate current data u1 os).emails = emailsFor current os data.status := by
  unfold finishUpdate at hok2 ⊢
  cases hhd : data.hire_date with
  | none => rfl
  | some hd =>
    rw [hhd] at hok2
    dsimp only at hok2 ⊢
    cases hder : derivedDateUpdates hd with
    | error e =>
      rw [hder] at hok2
      simp at hok2
    | ok o =>
      cases o with
      | none => rfl
      | some p => obtain ⟨sx, pm⟩ := p; rfl

theorem update_status_emails_raw (current : Option Referral) (data : Payload)
    (user now : String)
    (hok2 : (update_referral_status current data user now).response = .ok) :
    (update_referral_status current data user now).emails
      = emailsFor current (current.map (fun r => r.status)) data.status := by
  revert hok2
  unfold update_referral_status
  cases hst : data.status with
  | none =>
    intro hok2
    have h := finishUpdate_emails current data {} (current.map (fun r => r.status)) hok2
    rw [h, hst]
  | some ns =>
    by_cases hmem : ns ∈ STATUS_VALUES
    · dsimp only
      rw [if_pos hmem]
      intro hok2
      have h := finishUpdate_emails current data _ (current.map (fun r => r.status)) hok2
      rw [h, hst]
    · dsimp only
      rw [if_neg hmem]
      intro hok2
      simp at hok2

theorem response_ok_status_mem (current : Option Referral) (data : Payload)
    (user now : String) (ns : String) (hns : data.status = some ns)
    (hok2 : (update_referral_status current data user now).response = .ok) :
    ns ∈ STATUS_VALUES := by
  by_contra hmem
  rw [handler_invalid_status current data user now ns hns hmem] at hok2
  simp at hok2

theorem emailsFor_valid (current : Option Referral) (ns : String)
    (hmem : ns ∈ STATUS_VALUES) :
    emailsFor current (current.map (fun r => r.status)) (some ns) =
      (match current with
       | some pre =>
         if pre.status ≠ "" ∧ ns ≠ pre.status then
           Email.statusChanged (mkStatusEmail pre ns)
             :: (if ns = "Eligible" then [Email.payoutReady (mkPayoutEmail pre)] else [])
         else []
       | none => []) := by
  cases current with
  | none => rfl
  | some pre =>
    unfold emailsFor
    dsimp only [Option.map]
    have hne := mem_STATUS_VALUES_ne_empty hmem
    by_cases hcond : pre.status ≠ "" ∧ ns ≠ pre.status
    · rw [if_pos ⟨hne, hcond.1, hcond.2⟩, if_pos hcond]
    · rw [if_neg (fun h => hcond ⟨h.2.1, h.2.2⟩), if_neg hcond]

theorem finishUpdate_record_bonus (current : Option Referral) (data : Payload)
    (u1 : Updates) (os : Option String) (hb : data.bonus_amount = none) :
    (finishUpdate current data u1 os).record.map (fun r => r.bonus_amount)
      = current.map (fun r => r.bonus_amount) := by
  unfold finishUpdate
  cases data.hire_date with
  | none => exact map_update_bonus current _ hb
  | some hd =>
    dsimp only
    cases derivedDateUpdates hd with
    | error e => rfl
    | ok o =>
      cases o with
      | none => exact map_update_bonus current _ hb
      | some p =>
        obtain ⟨sx, pm⟩ := p
        exact map_update_bonus current _ hb

/-- C4: an admin update requesting a status outside the 11 canonical values
is rejected with the validation error before any mutation: the stored record
is unchanged, no notification is sent, whatever else the payload holds. -/
theorem invalid_status_rejected (current : Option Referral) (data : Payload)
    (user now : String) (ns : String)
    (hns : data.status = some ns) (hmem : ns ∉ STATUS_VALUES) :
    update_referral_status current data user now = ⟨current, .invalidStatus, []⟩ :=
  handler_invalid_status current data user now ns hns hmem

/-- C4 witness: a payload carrying a bogus status together with other edits
leaves the concrete stored record untouched and answers the 400 error. -/
theorem invalid_status_rejected_witness :
    update_referral_status (some testReferral)
        { status := some "Bogus", hire_date := some "2025-02-01", admin_notes := some "n" }
        "admin@example.org" "2025-06-01T00:00:00"
      = ⟨some testReferral, .invalidStatus, []⟩ :=
  invalid_status_rejected (some testReferral)
    { status := some "Bogus", hire_date := some "2025-02-01", admin_notes := some "n" }
    "admin@example.org" "2025-06-01T00:00:00" "Bogus" rfl (by decide)

/-- C5: at submission the bonus is 500 exactly for position type Lead
Teacher and 300 for any other value, and an admin update whose payload does
not edit bonus_amount leaves the stored bonus unchanged on every path, in
particular on any status change. -/
theorem bonus_amount_policy :
    (∀ data rid ts,
        (submit_referral data rid ts).map (fun r => r.bonus_amount)
          = if requiredFieldsPresent data then
              some (if data.position_type = "Lead Teacher" then (500 : Int) else 300)
            else none)
    ∧ (∀ (current : Option Referral) (data : Payload) (user now : String),
        (update_referral_status current { data with bonus_amount := none } user now).record.map
            (fun r => r.bonus_amount)
          = current.map (fun r => r.bonus_amount)) := by
  constructor
  · intro data rid ts
    unfold submit_referral computeBonus
    split_ifs with h h2 <;> rfl
  · intro current data user now
    unfold update_referral_status
    cases ({ data with bonus_amount := none } : Payload).status with
    | none => exact finishUpdate_record_bonus current _ _ _ rfl
    | some ns =>
      dsimp only
      by_cases hmem : ns ∈ STATUS_VALUES
      · rw [if_pos hmem]
        exact finishUpdate_record_bonus current _ _ _ rfl
      · rw [if_neg hmem]

theorem derivedDateUpdates_empty : derivedDateUpdates "" = .ok none := rfl

/-- C1 counterexample: the hire date 9999-11-01 parses and its sixty-day
date 9999-12-31 is representable, yet the payout-month arithmetic walks past
year 9999, the OverflowError escapes the except-ValueError clause, the
request answers the 500 server error and neither derived field is set. -/
theorem hire_date_overflow_counterexample :
    parseDate "9999-11-01" = some ⟨9999, 11, 1⟩
    ∧ addDays ⟨9999, 11, 1⟩ 60 = ⟨9999, 12, 31⟩
    ∧ update_referral_status (some testReferral) { hire_date := some "9999-11-01" }
        "admin@example.org" "2025-06-01T00:00:00"
      = ⟨some testReferral, .serverError, []⟩
    ∧ testReferral.sixty_day_date ≠ formatYMD ⟨9999, 12, 31⟩ :=
  ⟨by decide, by decide, by decide, by decide⟩

/-- C1 (amended): for every admin update whose status field, when present,
is canonical, and whose hire_date parses as a date such that both hire_date
plus 60 days and the payout-month arithmetic stay within year 9999, the
update succeeds, hire_date is stored, sixty_day_date becomes hire_date plus
exactly 60 calendar days, and payout_month becomes the first day of the
calendar month following the month of sixty_day_date, formatted as full
month name plus year. Hire dates whose derived dates would pass year 9999
instead abort with a server error and persist nothing. -/
theorem hire_date_sets_derived_fields
    (pre : Referral) (data : Payload) (user now hd : String) (d : Date)
    (hok : statusOKb data = true)
    (hhd : data.hire_date = some hd)
    (hp : parseDate hd = some d)
    (h60 : (addDays d 60).year ≤ 9999)
    (h32 : (addDays ⟨(addDays d 60).year, (addDays d 60).month, 1⟩ 32).year ≤ 9999) :
    (update_referral_status (some pre) data user now).response = .ok
    ∧ (update_referral_status (some pre) data user now).record.map
        (fun r => (r.hire_date, r.sixty_day_date, r.payout_month))
      = some (hd, formatYMD (addDays d 60), payoutMonthSpec (addDays d 60)) := by
  have hder := derivedDateUpdates_parseable hp h60 h32
  rw [update_status_eq_finish _ _ _ _ hok,
    finishUpdate_parseable _ _ _ _ hd _ _ hhd hder]
  refine ⟨rfl, ?_⟩
  dsimp only [Option.map]
  simp [update_referral, applyNonStatusFields, applyStrField, applyDateField_some]

/-- C1 witness: at the spec example hire date 2025-01-01 the update succeeds
and stores sixty_day_date 2025-03-02 and payout_month April 2025. -/
theorem hire_date_sets_derived_fields_witness :
    ((update_referral_status (some testReferral) { hire_date := some "2025-01-01" }
          "admin@example.org" "2025-06-01T00:00:00").response = .ok
      ∧ (update_referral_status (some testReferral) { hire_date := some "2025-01-01" }
          "admin@example.org" "2025-06-01T00:00:00").record.map
            (fun r => (r.hire_date, r.sixty_day_date, r.payout_month))
        = some ("2025-01-01", formatYMD (addDays ⟨2025, 1, 1⟩ 60),
            payoutMonthSpec (addDays ⟨2025, 1, 1⟩ 60)))
    ∧ formatYMD (addDays ⟨2025, 1, 1⟩ 60) = "2025-03-02"
    ∧ payoutMonthSpec (addDays ⟨2025, 1, 1⟩ 60) = "April 2025" :=
  ⟨hire_date_sets_derived_fields testReferral { hire_date := some "2025-01-01" }
      "admin@example.org" "2025-06-01T00:00:00" "2025-01-01" ⟨2025, 1, 1⟩
      (by decide) rfl (by decide) (by decide) (by decide),
    by decide, by decide⟩

/-- C2 counterexample: clearing hire_date leaves both derived fields with
their old values rather than clearing them: on the concrete record the
update empties hire_date but sixty_day_date stays 2025-03-02 and
payout_month stays April 2025. -/
theorem clear_hire_date_counterexample :
    update_referral_status (some testReferral) { hire_date := some "" }
        "admin@example.org" "2025-06-01T00:00:00"
      = ⟨some { testReferral with hire_date := "" }, .ok, []⟩
    ∧ ({ testReferral with hire_date := "" } : Referral).sixty_day_date = "2025-03-02"
    ∧ ({ testReferral with hire_date := "" } : Referral).payout_month = "April 2025" :=
  ⟨by decide, by decide, by decide⟩

/-- C2 (amended): after a successful admin update whose hire_date field is a
parseable in-range date, the invariant holds: the stored sixty_day_date is
hire_date plus 60 days, so the derived dates are recomputed whenever
hire_date changes to such a value; but when hire_date is cleared by the
update, hire_date becomes empty while sixty_day_date and payout_month keep
their previous values instead of being cleared. -/
theorem hire_date_invariant :
    (∀ (pre : Referral) (data : Payload) (user now hd : String) (d : Date),
        statusOKb data = true → data.hire_date = some hd → parseDate hd = some d →
        (addDays d 60).year ≤ 9999 →
        (addDays ⟨(addDays d 60).year, (addDays d 60).month, 1⟩ 32).year ≤ 9999 →
        (update_referral_status (some pre) data user now).record.map
            (fun r => (r.hire_date, r.sixty_day_date))
          = some (hd, formatYMD (addDays d 60)))
    ∧ (∀ (pre : Referral) (data : Payload) (user now : String),
        statusOKb data = true → data.hire_date = some "" →
        (update_referral_status (some pre) data user now).record.map
            (fun r => (r.hire_date, r.sixty_day_date, r.payout_month))
          = some ("", pre.sixty_day_date, pre.payout_month)) := by
  constructor
  · intro pre data user now hd d hok hhd hp h60 h32
    have hder := derivedDateUpdates_parseable hp h60 h32
    rw [update_status_eq_finish _ _ _ _ hok,
      finishUpdate_parseable _ _ _ _ hd _ _ hhd hder]
    dsimp only [Option.map]
    simp [update_referral, applyNonStatusFields, applyStrField, applyDateField_some]
  · intro pre data user now hok hhd
    rw [update_status_eq_finish _ _ _ _ hok,
      finishUpdate_no_derived _ _ _ _ "" hhd derivedDateUpdates_empty]
    dsimp only [Option.map]
    simp [update_referral, applyNonStatusFields, applyStrField, applyDateField_some,
      applyDateField_none, statusUpdatesOf_sixty, statusUpdatesOf_payout]

/-- C2 witness: changing hire_date to 2025-02-01 recomputes sixty_day_date
to 2025-04-02, and clearing hire_date on the concrete record keeps the old
derived values. -/
theorem hire_date_invariant_witness :
    ((update_referral_status (some testReferral) { hire_date := some "2025-02-01" }
          "a@x.org" "t").record.map (fun r => (r.hire_date, r.sixty_day_date))
        = some ("2025-02-01", formatYMD (addDays ⟨2025, 2, 1⟩ 60)))
    ∧ ((update_referral_status (some testReferral) { hire_date := some "" }
          "a@x.org" "t").record.map (fun r => (r.hire_date, r.sixty_day_date, r.payout_month))
        = some ("", testReferral.sixty_day_date, testReferral.payout_month))
    ∧ formatYMD (addDays ⟨2025, 2, 1⟩ 60) = "2025-04-02" :=
  ⟨hire_date_invariant.1 testReferral { hire_date := some "2025-02-01" } "a@x.org" "t"
      "2025-02-01" ⟨2025, 2, 1⟩ (by decide) rfl (by decide) (by decide) (by decide),
    hire_date_invariant.2 testReferral { hire_date := some "" } "a@x.org" "t"
      (by decide) rfl,
    by decide⟩

/-- C6: an admin update whose nonempty hire_date does not parse in format
Y-m-d is swallowed: provided the status field, when present, is canonical,
the update answers success, sixty_day_date and payout_month are untouched,
the raw hire_date string is stored, and every other field present in the
payload is applied. -/
theorem unparseable_hire_date_swallowed
    (pre : Referral) (data : Payload) (user now hd : String)
    (hok : statusOKb data = true)
    (hhd : data.hire_date = some hd) (hne : hd ≠ "") (hp : parseDate hd = none) :
    (update_referral_status (some pre) data user now).response = .ok
    ∧ ∃ r2, (update_referral_status (some pre) data user now).record = some r2
      ∧ r2.sixty_day_date = pre.sixty_day_date
      ∧ r2.payout_month = pre.payout_month
      ∧ r2.hire_date = hd
      ∧ (∀ s, data.status = some s → r2.status = s)
      ∧ (∀ p, data.position = some p → r2.position = p)
      ∧ (∀ pt, data.position_type = some pt → r2.position_type = pt)
      ∧ (∀ b, data.bonus_amount = some b → r2.bonus_amount = b)
      ∧ (∀ pd, data.paid_date = some pd → r2.paid_date = pd)
      ∧ (∀ an, data.admin_notes = some an → r2.admin_notes = an) := by
  have hder := derivedDateUpdates_unparseable hne hp
  rw [update_status_eq_finish _ _ _ _ hok,
    finishUpdate_no_derived _ _ _ _ hd hhd hder]
  refine ⟨rfl, _, rfl, ?_, ?_, ?_, ?_, ?_, ?_, ?_, ?_, ?_⟩
  · simp [update_referral, applyNonStatusFields, applyDateField_none, statusUpdatesOf_sixty]
  · simp [update_referral, applyNonStatusFields, applyStrField, statusUpdatesOf_payout]
  · simp [update_referral, applyNonStatusFields, applyDateField_some]
  · intro s hs
    simp [update_referral, applyNonStatusFields, applyStrField, statusUpdatesOf_status, hs]
  · intro p hp2
    simp [update_referral, applyNonStatusFields, applyStrField, hp2]
  · intro pt hpt
    simp [update_referral, applyNonStatusFields, applyStrField, hpt]
  · intro b hb
    simp [update_referral, applyNonStatusFields, hb]
  · intro pd hpd
    simp [update_referral, applyNonStatusFields, applyDateField_some, hpd]
  · intro an han
    simp [update_referral, applyNonStatusFields, applyStrField, han]

/-- C6 witness: a concrete update carrying the unparseable hire date
not-a-date together with a status change and an admin note succeeds, keeps
the derived dates, stores the raw string and applies the other fields. -/
theorem unparseable_hire_date_swallowed_witness :
    ((update_referral_status (some testReferral)
          { status := some "Interviewing", hire_date := some "not-a-date",
            admin_notes := some "note" } "a@x.org" "t").response = .ok)
    ∧ ((update_referral_status (some testReferral)
          { status := some "Interviewing", hire_date := some "not-a-date",
            admin_notes := some "note" } "a@x.org" "t").record.map
        (fun r => (r.hire_date, r.sixty_day_date, r.payout_month, r.status, r.admin_notes))
        = some ("not-a-date", "2025-03-02", "April 2025", "Interviewing", "note")) :=
  ⟨(unparseable_hire_date_swallowed testReferral
      { status := some "Interviewing", hire_date := some "not-a-date",
        admin_notes := some "note" } "a@x.org" "t" "not-a-date"
      (by decide) rfl (by decide) (by decide)).1,
    by decide⟩

/-- C3 counterexample: with prior status Hired and requested status
Eligible, a payload that also carries the out-of-range hire date 9999-11-01
makes the request fail with the server error and emit zero notifications,
where the claim demands exactly two. -/
theorem status_change_notifications_counterexample :
    testReferral.status = "Hired"
    ∧ (update_referral_status (some testReferral)
        { status := some "Eligible", hire_date := some "9999-11-01" }
        "admin@example.org" "t").emails = []
    ∧ (update_referral_status (some testReferral)
        { status := some "Eligible", hire_date := some "9999-11-01" }
        "admin@example.org" "t").response = .serverError :=
  ⟨rfl, by decide, by decide⟩

/-- C3 (amended): for every admin update requesting status ns that completes
successfully, the emitted notifications are exactly one status-changed email
to the referrer, followed by exactly one payout-ready email if and only if
ns is Eligible, when a prior nonempty status exists and differs from ns; and
none at all when the status is unchanged or no prior record or status
exists. -/
theorem status_change_notifications
    (current : Option Referral) (data : Payload) (user now : String) (ns : String)
    (hns : data.status = some ns)
    (hok2 : (update_referral_status current data user now).response = .ok) :
    (update_referral_status current data user now).emails =
      (match current with
       | some pre =>
         if pre.status ≠ "" ∧ ns ≠ pre.status then
           Email.statusChanged (mkStatusEmail pre ns)
             :: (if ns = "Eligible" then [Email.payoutReady (mkPayoutEmail pre)] else [])
         else []
       | none => []) := by
  have hmem := response_ok_status_mem current data user now ns hns hok2
  have h1 := update_status_emails_raw current data user now hok2
  rw [h1, hns, emailsFor_valid current ns hmem]
  cases current with
  | none => rfl
  | some pre => rfl

/-- C3 witness: changing the concrete Hired referral to Eligible emits
exactly the status-changed email and the payout-ready email; requesting the
unchanged status Hired emits nothing. -/
theorem status_change_notifications_witness :
    ((update_referral_status (some testReferral) { status := some "Eligible" }
        "a@x.org" "t").emails
      = [Email.statusChanged (mkStatusEmail testReferral "Eligible"),
         Email.payoutReady (mkPayoutEmail testReferral)])
    ∧ ((update_referral_status (some testReferral) { status := some "Hired" }
        "a@x.org" "t").emails = []) := by
  constructor
  · rw [status_change_notifications (some testReferral) { status := some "Eligible" }
      "a@x.org" "t" "Eligible" rfl (by decide)]
    decide
  · rw [status_change_notifications (some testReferral) { status := some "Hired" }
      "a@x.org" "t" "Hired" rfl (by decide)]
    decide

/-- C10: the notifications of a successful status-changing update are
rendered from the referral record as fetched before the update: every field
shown in the emails is the pre-update value. -/
theorem emails_render_preupdate_record
    (pre : Referral) (data : Payload) (user now : String) (ns : String)
    (hns : data.status = some ns)
    (hok2 : (update_referral_status (some pre) data user now).response = .ok)
    (hold : pre.status ≠ "") (hdiff : ns ≠ pre.status) :
    (update_referral_status (some pre) data user now).emails
      = Email.statusChanged (mkStatusEmail pre ns)
        :: (if ns = "Eligible" then [Email.payoutReady (mkPayoutEmail pre)] else [])
    ∧ (mkStatusEmail pre ns).bonus_amount = pre.bonus_amount
    ∧ (mkStatusEmail pre ns).position = pre.position
    ∧ (mkStatusEmail pre ns).to_email = pre.referrer_email
    ∧ (mkPayoutEmail pre).amount = pre.bonus_amount
    ∧ (mkPayoutEmail pre).hire_date = pre.hire_date
    ∧ (mkPayoutEmail pre).sixty_day_date = pre.sixty_day_date
    ∧ (mkPayoutEmail pre).payout_month = pre.payout_month := by
  refine ⟨?_, rfl, rfl, rfl, rfl, rfl, rfl, rfl⟩
  have hmem := response_ok_status_mem (some pre) data user now ns hns hok2
  have h1 := update_status_emails_raw (some pre) data user now hok2
  rw [h1, hns, emailsFor_valid (some pre) ns hmem]
  dsimp only
  rw [if_pos ⟨hold, hdiff⟩]

/-- C10 witness: an update to Eligible that also rewrites bonus_amount,
position and hire_date emits emails carrying the old bonus 500, position
Teacher and hire date 2025-01-01, while the stored record now carries the
new values. -/
theorem emails_render_preupdate_record_witness :
    ((update_referral_status (some testReferral)
        { status := some "Eligible", hire_date := some "2025-05-01",
          position := some "Principal", bonus_amount := some 999 }
        "a@x.org" "t").emails
      = Email.statusChanged (mkStatusEmail testReferral "Eligible")
        :: (if "Eligible" = "Eligible"
            then [Email.payoutReady (mkPayoutEmail testReferral)] else []))
    ∧ ((update_referral_status (some testReferral)
        { status := some "Eligible", hire_date := some "2025-05-01",
          position := some "Principal", bonus_amount := some 999 }
        "a@x.org" "t").record.map
          (fun r => (r.bonus_amount, r.position, r.hire_date))
      = some (999, "Principal", "2025-05-01"))
    ∧ (mkStatusEmail testReferral "Eligible").bonus_amount = 500
    ∧ (mkPayoutEmail testReferral).hire_date = "2025-01-01"
    ∧ (mkPayoutEmail testReferral).payout_month = "April 2025" :=
  ⟨(emails_render_preupdate_record testReferral
      { status := some "Eligible", hire_date := some "2025-05-01",
        position := some "Principal", bonus_amount := some 999 }
      "a@x.org" "t" "Eligible" rfl (by decide) (by decide) (by decide)).1,
    by decide, by decide, by decide, by decide⟩

theorem sumBonus_eq (l : List Referral) :
    sumBonus l = (l.map (fun r => r.bonus_amount)).sum := by
  have h : ∀ (l : List Referral) (a : Int),
      l.foldl (fun acc r => acc + r.bonus_amount) a
        = a + (l.map (fun r => r.bonus_amount)).sum := by
    intro l
    induction l with
    | nil => intro a; simp
    | cons x xs ih =>
      intro a
      simp only [List.foldl_cons, List.map_cons, List.sum_cons, ih, add_assoc]
  unfold sumBonus
  rw [h]
  simp

/-- C7: the lookup endpoint returns total_pending equal to the sum of
bonus_amount over the referrals of the looked-up referrer whose status is
one of Submitted, Under Review, Candidate Applied, Interviewing, Hired,
Eligible, and total_paid equal to the sum over those with status Paid. -/
theorem lookup_totals
    (all_referrals : List Referral) (email_arg : String) (res : LookupResult)
    (h : lookup_referrals all_referrals email_arg = some res) :
    res.total_pending
      = ((all_referrals.filter (fun r =>
            PENDING_STATUSES.contains r.status
              && (lowerStr r.referrer_email == lowerStr (stripStr email_arg)))).map
          (fun r => r.bonus_amount)).sum
    ∧ res.total_paid
      = ((all_referrals.filter (fun r =>
            r.status == "Paid"
              && (lowerStr r.referrer_email == lowerStr (stripStr email_arg)))).map
          (fun r => r.bonus_amount)).sum := by
  unfold lookup_referrals at h
  by_cases he : lowerStr (stripStr email_arg) = ""
  · rw [if_pos he] at h
    exact absurd h (by simp)
  · rw [if_neg he] at h
    injection h with h2
    subst h2
    constructor
    · dsimp only
      rw [sumBonus_eq, List.filter_filter]
    · dsimp only
      rw [sumBonus_eq, List.filter_filter]

/-- C7 witness: on a concrete three-referral store, looking up the first
referrer, written with spaces and capitals, totals 500 pending from the
Hired referral and 300 paid from the Paid one, matching the filtered sums. -/
theorem lookup_totals_witness :
    (∃ res, lookup_referrals [testReferral, testReferralPaid, testReferralOther]
        " RAE@Example.org" = some res
      ∧ res.total_pending
          = (([testReferral, testReferralPaid, testReferralOther].filter (fun r =>
                PENDING_STATUSES.contains r.status
                  && (lowerStr r.referrer_email
                      == lowerStr (stripStr " RAE@Example.org")))).map
              (fun r => r.bonus_amount)).sum
      ∧ res.total_paid
          = (([testReferral, testReferralPaid, testReferralOther].filter (fun r =>
                r.status == "Paid"
                  && (lowerStr r.referrer_email
                      == lowerStr (stripStr " RAE@Example.org")))).map
              (fun r => r.bonus_amount)).sum
      ∧ res.total_pending = 500
      ∧ res.total_paid = 300) := by
  refine ⟨{ referrals := [{ testReferral with admin_notes := "" }, { testReferralPaid with admin_notes := "" }], total_pending := 500, total_paid := 300 }, by decide, ?_, ?_, by decide, by decide⟩
  · exact (lookup_totals [testReferral, testReferralPaid, testReferralOther]
      " RAE@Example.org" _ (by decide)).1
  · exact (lookup_totals [testReferral, testReferralPaid, testReferralOther]
      " RAE@Example.org" _ (by decide)).2

/-- C8: archived referrals are excluded from every aggregate of the stats
endpoint, and prepending an archived referral changes no aggregate, while
the admin dump still returns every stored row including archived ones. -/
theorem archived_referrals_policy :
    (∀ referrals : List Referral,
        get_stats referrals = get_stats (referrals.filter (fun r => !r.is_archived)))
    ∧ (∀ (referrals : List Referral) (r : Referral), r.is_archived = true →
        get_stats (r :: referrals) = get_stats referrals)
    ∧ (∀ referrals : List Referral, get_all_referrals referrals = referrals) := by
  refine ⟨?_, ?_, fun _ => rfl⟩
  · intro referrals
    unfold get_stats
    rw [List.filter_filter]
    simp
  · intro referrals r h
    unfold get_stats
    rw [List.filter_cons]
    simp [h]

/-- C8 witness: on a concrete store the archived Eligible referral is absent
from every stats aggregate but present in the admin dump. -/
theorem archived_referrals_policy_witness :
    (get_stats [testReferralArchived, testReferral]
        = get_stats ([testReferralArchived, testReferral].filter (fun r => !r.is_archived)))
    ∧ (get_stats (testReferralArchived :: [testReferral]) = get_stats [testReferral])
    ∧ (get_all_referrals [testReferralArchived, testReferral]
        = [testReferralArchived, testReferral])
    ∧ (get_stats [testReferralArchived, testReferral]).hired_pending = 1
    ∧ (get_stats [testReferralArchived, testReferral]).total = 1
    ∧ testReferralArchived ∈ get_all_referrals [testReferralArchived, testReferral] :=
  ⟨archived_referrals_policy.1 [testReferralArchived, testReferral],
    archived_referrals_policy.2.1 [testReferral] testReferralArchived (by decide),
    archived_referrals_policy.2.2 [testReferralArchived, testReferral],
    by decide, by decide, by decide⟩

/-- C9: the weekly rollup over an empty referral set has every section table
empty and its action-item list is exactly the single all-caught-up item. -/
theorem empty_rollup (now : Date) :
    send_weekly_rollup [] now =
      { new_referrals := []
        needs_review := []
        interviewing := []
        hired_waiting := []
        upcoming_eligible := []
        ready_for_payout := []
        total_pending_bonus := 0
        total_paid_bonus := 0
        action_items := [ActionItem.allCaughtUp] } := rfl

end StaffReferral

